import Mathlib

set_option maxRecDepth 100000

/-
Formal model of the file-ingestion-to-prompt pipeline of src/app.py
(Study Wise Ai Tutor, single-file Streamlit app).

Modelling conventions:
- Python strings are sequences of Unicode code points, modelled as `List Nat`.
- Python bytes are modelled as `List (Fin 256)`.
- Python exceptions are modelled with `Except (List Nat) _` (the payload is the
  stringified exception message); a `try/except` becomes a `match` on the result.
- External library calls (PyPDF2's PdfReader / page.extract_text, python-docx,
  markdown2.markdown, the google.genai and openai clients) are parameters of the
  model: any Python callable may raise, so each is a function into `Except`.
-/

/- String literals used by src/app.py, bound as named constants. -/

def s_preamble : String := "You are Study Wise Ai Tutor — a helpful, patient, step-by-step AI tutor. When asked, provide clear explanations, list key steps, produce short quizzes, and suggest external resources if enabled. Keep answers concise but thorough; when asked for step-by-step, number steps. "

def s_nl : String := "\n"

def s_nn : String := "\n\n"

def s_mode_label : String := "Mode: "

def s_mode_pre : String := "\nMode: "

def s_ext_label : String := "ExternalLinksAllowed: "

def s_ext_pre : String := "\nExternalLinksAllowed: "

def s_true : String := "True"

def s_false : String := "False"

def s_explain : String := "explain"

def s_fallback_header : String := "[Local fallback response]\n\n"

def s_fallback_tag : String := "[Local fallback response]"

def s_dots : String := "..."

def s_trunc : String := "\n\n[Truncated]"

def s_pdf_err_pre : String := "[Error reading PDF: "

def s_docx_err_pre : String := "[Error reading DOCX: "

def s_rbracket : String := "]"

def s_dot_pdf : String := ".pdf"

def s_dot_docx : String := ".docx"

def s_dot_md : String := ".md"

def s_attr_err : String := "AttributeError: module streamlit has no attribute debug"

def s_fatal : String := "Fatal configuration error: no API credential is configured"

/-- A Python `str` value as its list of Unicode code points. -/
def txt (s : String) : List Nat := s.data.map Char.toNat

/-- Python `str.lower()` restricted to ASCII letters (sufficient here: it is only
used to test ASCII extension suffixes of file names). -/
def py_lower (t : List Nat) : List Nat :=
  t.map (fun c => if 65 ≤ c ∧ c ≤ 90 then c + 32 else c)

/-- The code points Python's `str.isspace` accepts (ASCII whitespace, the C1 and
Unicode space/separator characters); `str.strip()` strips exactly these. -/
def py_is_space (c : Nat) : Bool :=
  decide ((9 ≤ c ∧ c ≤ 13) ∨ c = 32 ∨ (28 ≤ c ∧ c ≤ 31) ∨ c = 133 ∨ c = 160 ∨
    c = 5760 ∨ (8192 ≤ c ∧ c ≤ 8202) ∨ c = 8232 ∨ c = 8233 ∨ c = 8239 ∨
    c = 8287 ∨ c = 12288)

/-- Python `str.strip()`: drop leading and trailing whitespace. -/
def py_strip (t : List Nat) : List Nat :=
  ((t.dropWhile py_is_space).reverse.dropWhile py_is_space).reverse

/-- app.py line 52: `MAX_FILE_TEXT = 120000  # characters allowed from file`. -/
def MAX_FILE_TEXT : Nat := 120000

/-- The truncation marker appended at app.py line 196. -/
def TRUNC_MARKER : List Nat := txt s_trunc

/-- app.py lines 195-196 (inside parse_uploaded_file):
`if len(text) > MAX_FILE_TEXT: text = text[:MAX_FILE_TEXT] + "\n\n[Truncated]"`. -/
def cap_file_text (t : List Nat) : List Nat :=
  if MAX_FILE_TEXT < t.length then t.take MAX_FILE_TEXT ++ TRUNC_MARKER else t

/- ---------------------------------------------------------------------------
UTF-8 decoding, as performed by Python `bytes.decode("utf-8", errors="replace")`
(app.py line 179). CPython follows the Unicode "maximal subpart" practice: each
maximal prefix of a valid sequence that cannot be completed is replaced by one
U+FFFD, and each invalid leading byte by one U+FFFD.
--------------------------------------------------------------------------- -/

/-- Bytes of a Python `bytes` object. -/
abbrev Byte := Fin 256

/-- A UTF-8 continuation byte: 0x80-0xBF. -/
def utf8_cont (b : Byte) : Bool := decide (128 ≤ b.val ∧ b.val ≤ 191)

/-- Lower bound for the second byte of a multi-byte sequence led by `b`
(0xE0 and 0xF0 restrict it to exclude overlong encodings). -/
def utf8_lo2 (b : Byte) : Nat :=
  if b.val = 224 then 160 else if b.val = 240 then 144 else 128

/-- Upper bound for the second byte of a multi-byte sequence led by `b`
(0xED excludes surrogates, 0xF4 caps code points at U+10FFFF). -/
def utf8_hi2 (b : Byte) : Nat :=
  if b.val = 237 then 159 else if b.val = 244 then 143 else 191

/-- One step of UTF-8 decoding with U+FFFD replacement, at leading byte `b`
followed by `rest`: the code point emitted, the remaining input, and whether
the consumed bytes formed a valid sequence (`false` means the code point is
the replacement character U+FFFD and the maximal subpart was consumed). -/
def utf8_step (b : Byte) (rest : List Byte) : Nat × List Byte × Bool :=
  if b.val ≤ 127 then (b.val, rest, true)
  else if 194 ≤ b.val ∧ b.val ≤ 223 then
    match rest with
    | [] => (65533, [], false)
    | b1 :: rest1 =>
      if utf8_cont b1 then ((b.val - 192) * 64 + (b1.val - 128), rest1, true)
      else (65533, b1 :: rest1, false)
  else if 224 ≤ b.val ∧ b.val ≤ 239 then
    match rest with
    | [] => (65533, [], false)
    | b1 :: rest1 =>
      if utf8_lo2 b ≤ b1.val ∧ b1.val ≤ utf8_hi2 b then
        match rest1 with
        | [] => (65533, [], false)
        | b2 :: rest2 =>
          if utf8_cont b2 then
            ((b.val - 224) * 4096 + (b1.val - 128) * 64 + (b2.val - 128), rest2, true)
          else (65533, b2 :: rest2, false)
      else (65533, b1 :: rest1, false)
  else if 240 ≤ b.val ∧ b.val ≤ 244 then
    match rest with
    | [] => (65533, [], false)
    | b1 :: rest1 =>
      if utf8_lo2 b ≤ b1.val ∧ b1.val ≤ utf8_hi2 b then
        match rest1 with
        | [] => (65533, [], false)
        | b2 :: rest2 =>
          if utf8_cont b2 then
            match rest2 with
            | [] => (65533, [], false)
            | b3 :: rest3 =>
              if utf8_cont b3 then
                ((b.val - 240) * 262144 + (b1.val - 128) * 4096 +
                  (b2.val - 128) * 64 + (b3.val - 128), rest3, true)
              else (65533, b3 :: rest3, false)
          else (65533, b2 :: rest2, false)
      else (65533, b1 :: rest1, false)
  else (65533, rest, false)

/-- The decoding loop, iterating `utf8_step`. The first argument is fuel that
makes the recursion structural; each step consumes at least the leading byte,
so fuel `bs.length` always suffices (see `utf8_loop_eq_step`). -/
def utf8_loop : Nat → List Byte → List Nat × Bool
  | 0, _ => ([], true)
  | _, [] => ([], true)
  | n + 1, b :: rest =>
    let s := utf8_step b rest
    let r := utf8_loop n s.2.1
    (s.1 :: r.1, s.2.2 && r.2)

/-- UTF-8 decoding with U+FFFD replacement: the decoded code points together
with a flag that is `true` iff the input was valid UTF-8 (no replacement). -/
def utf8_decode_core (bs : List Byte) : List Nat × Bool := utf8_loop bs.length bs

/-- The text produced by `bytes.decode("utf-8", errors="replace")`. -/
def utf8_decode_replace (bs : List Byte) : List Nat := (utf8_decode_core bs).1

/-- `bs` is valid UTF-8 (decoding performs no replacement). -/
def utf8_valid (bs : List Byte) : Bool := (utf8_decode_core bs).2

/-- Python `bytes.decode("latin-1", errors="replace")`: in Latin-1 every byte
decodes, to the code point equal to its value. -/
def latin1_decode (bs : List Byte) : List Nat := bs.map Fin.val

/-- app.py lines 177-181: `read_text_bytes`. The `try` body
`bytes_data.decode("utf-8", errors="replace")` is total (replacement decoding
never raises), so the `except` branch decoding as Latin-1 is unreachable and
the function is the UTF-8 replacement decoding. -/
def read_text_bytes (bs : List Byte) : List Nat := utf8_decode_replace bs

/- ---------------------------------------------------------------------------
File parsing (app.py lines 151-197). The external parsing libraries are
parameters: `pdf_reader` models `PdfReader(...).pages` together with each
page's `extract_text()` outcome, `docx_paragraphs` models
`docx.Document(...).paragraphs` (their `.text` fields), and `markdown` models
`markdown2.markdown`. Each may raise, hence the `Except` results.
--------------------------------------------------------------------------- -/

structure PyLibs where
  pdf_reader : List Byte → Except (List Nat) (List (Except (List Nat) (List Nat)))
  docx_paragraphs : List Byte → Except (List Nat) (List (List Nat))
  markdown : List Nat → Except (List Nat) (List Nat)

/-- The text a single PDF page contributes: `extract_text()`'s result, or `""`
when it raises (app.py lines 156-159). -/
def pdf_page_text (pg : Except (List Nat) (List Nat)) : List Nat :=
  match pg with
  | .ok t => t
  | .error _ => []

/-- The `for p in reader.pages` loop of app.py lines 155-161: each page's text
is computed by `pdf_page_text`, and only truthy (non-empty) texts are appended
to the accumulator `pages`. -/
def pdf_pages_loop : List (Except (List Nat) (List Nat)) → List (List Nat) → List (List Nat)
  | [], acc => acc
  | pg :: rest, acc =>
    let text := pdf_page_text pg
    if text.isEmpty then pdf_pages_loop rest acc else pdf_pages_loop rest (acc ++ [text])

/-- app.py lines 151-164: `read_pdf_bytes`. The whole body is inside
`try/except`, so a failure of `PdfReader` (or of iterating its pages) yields
the descriptive error string; per-page failures are absorbed by the loop. -/
def read_pdf_bytes (libs : PyLibs) (raw : List Byte) : List Nat :=
  match libs.pdf_reader raw with
  | .ok pages => List.intercalate (txt s_nn) (pdf_pages_loop pages [])
  | .error e => txt s_pdf_err_pre ++ e ++ txt s_rbracket

/-- app.py lines 166-175: `read_docx_bytes`: keep the paragraphs whose text has
non-empty strip, join with blank lines; any library failure yields the
descriptive error string. -/
def read_docx_bytes (libs : PyLibs) (raw : List Byte) : List Nat :=
  match libs.docx_paragraphs raw with
  | .ok paras => List.intercalate (txt s_nn) (paras.filter (fun p => !(py_strip p).isEmpty))
  | .error e => txt s_docx_err_pre ++ e ++ txt s_rbracket

/-- The extension dispatch of `parse_uploaded_file` (app.py lines 186-194),
before the final truncation. The `.md` branch calls `markdown2.markdown`
outside any `try/except`, so an exception it raises propagates (`.error`). -/
def parse_extract (libs : PyLibs) (name : List Nat) (raw : List Byte) :
    Except (List Nat) (List Nat) :=
  let lower := py_lower name
  if (txt s_dot_pdf).isSuffixOf lower then .ok (read_pdf_bytes libs raw)
  else if (txt s_dot_docx).isSuffixOf lower then .ok (read_docx_bytes libs raw)
  else
    let text := read_text_bytes raw
    if (txt s_dot_md).isSuffixOf lower then libs.markdown text
    else .ok text

/-- app.py lines 183-197: `parse_uploaded_file`, returning the `(name, text)`
pair after capping the text, or the uncaught exception. -/
def parse_uploaded_file (libs : PyLibs) (name : List Nat) (raw : List Byte) :
    Except (List Nat) (List Nat × List Nat) :=
  match parse_extract libs name raw with
  | .ok text => .ok (name, cap_file_text text)
  | .error e => .error e

/- ---------------------------------------------------------------------------
Prompt assembly and LLM dispatch (app.py lines 61-145).
--------------------------------------------------------------------------- -/

/-- The optional `mode_meta` dict of `generate_response`: the keys
`"external_refs"` and `"reasoning"` may each be absent. -/
structure ModeMeta where
  external_refs : Option Bool
  reasoning : Option (List Nat)

/-- `mode_meta.get("external_refs", True)` after `mode_meta = {}` when None
(app.py lines 89-92). -/
def meta_external_flag (m : Option ModeMeta) : Bool :=
  ((m.getD ⟨none, none⟩).external_refs).getD true

/-- `mode_meta.get("reasoning", "explain")` (app.py line 93). -/
def meta_reasoning (m : Option ModeMeta) : List Nat :=
  ((m.getD ⟨none, none⟩).reasoning).getD (txt s_explain)

/-- How Python renders a bool inside an f-string: `True` / `False`. -/
def py_bool_str (b : Bool) : List Nat := if b then txt s_true else txt s_false

/-- The fixed system preamble of app.py lines 83-87. -/
def system_preamble : List Nat := txt s_preamble

/-- app.py line 96:
`f"{system_preamble}\nMode: {reasoning}\nExternalLinksAllowed: {external_flag}\n\n{prompt}"`. -/
def assembled_prompt (prompt : List Nat) (m : Option ModeMeta) : List Nat :=
  system_preamble ++ txt s_mode_pre ++ meta_reasoning m ++
    txt s_ext_pre ++ py_bool_str (meta_external_flag m) ++ txt s_nn ++ prompt

/-- app.py lines 143-145: the local fallback response built from the stripped
assembled prompt. -/
def local_fallback (a : List Nat) : List Nat :=
  let short := py_strip a
  txt s_fallback_header ++ (short.take 800 ++ (if 800 < short.length then txt s_dots else []))

/-- The response object of `gemini.models.generate_content`: its optional
`.text` attribute and its `str(...)` rendering (app.py lines 107-111). -/
structure GeminiResp where
  text : Option (List Nat)
  as_str : List Nat

/-- A configured google.genai client: `generate_content` on a prompt string
either returns a response or raises. -/
structure GeminiClient where
  generate : List Nat → Except (List Nat) GeminiResp

/-- A configured openai client: `hasChat` is `hasattr(openai, "ChatCompletion")`;
`chat` takes the system and user message contents, `completion` the single
prompt string; each returns the reply text (`choices[0]...`) or raises. -/
structure OpenaiClient where
  hasChat : Bool
  chat : List Nat → List Nat → Except (List Nat) (List Nat)
  completion : List Nat → Except (List Nat) (List Nat)

/-- The provider environment seen by `generate_response`: what
`get_gemini_client()` and `get_openai_client()` return (None or a client). -/
structure Env where
  gemini : Option GeminiClient
  openai : Option OpenaiClient

/-- A record of one request actually sent to an external completion provider,
with the text(s) it carried. -/
inductive ProviderCall where
  | gemini (contents : List Nat)
  | openaiChat (system user : List Nat)
  | openaiCompletion (prompt : List Nat)
deriving DecidableEq

/-- The full prompt text carried by a provider call (for the chat form, the
concatenated message contents). -/
def sent_text : ProviderCall → List Nat
  | .gemini a => a
  | .openaiChat s u => s ++ u
  | .openaiCompletion a => a

/-- The OpenAI branch of `generate_response` (app.py lines 117-145), followed by
the local fallback. `dbg` says whether `st.debug` is defined at this point: it
is an attribute the module `streamlit` does not have; app.py line 113 assigns it
(guarded by `getattr`) only inside the *Gemini* `except` branch, so if that
branch did not run, the bare `st.debug(...)` call at line 141 raises
`AttributeError` out of the function. -/
def openai_stage (env : Env) (dbg : Bool) (a p : List Nat) :
    Except (List Nat) (List Nat) × List ProviderCall :=
  match env.openai with
  | some oc =>
    if oc.hasChat then
      match oc.chat system_preamble p with
      | .ok s => (.ok (py_strip s), [.openaiChat system_preamble p])
      | .error _ =>
        (if dbg then .ok (local_fallback a) else .error (txt s_attr_err),
         [.openaiChat system_preamble p])
    else
      match oc.completion a with
      | .ok s => (.ok (py_strip s), [.openaiCompletion a])
      | .error _ =>
        (if dbg then .ok (local_fallback a) else .error (txt s_attr_err),
         [.openaiCompletion a])
  | none => (.ok (local_fallback a), [])

/-- app.py lines 76-145: `generate_response`. Returns the result (or the
uncaught exception) together with the list of provider calls attempted.
`stHasDebug` says whether the module attribute `st.debug` exists on entry
(it persists across calls because line 113 mutates the module). -/
def generate_response (env : Env) (stHasDebug : Bool) (p : List Nat)
    (m : Option ModeMeta) : Except (List Nat) (List Nat) × List ProviderCall :=
  let a := assembled_prompt p m
  match env.gemini with
  | some g =>
    match g.generate a with
    | .ok resp =>
      (.ok (match resp.text with
            | some t => if t.isEmpty then resp.as_str else t
            | none => resp.as_str),
       [.gemini a])
    | .error _ =>
      -- line 113 defines st.debug before using it, so it exists afterwards
      let r := openai_stage env true a p
      (r.1, .gemini a :: r.2)
  | none => openai_stage env stHasDebug a p

/- ---------------------------------------------------------------------------
Credential lookup (app.py lines 61-74) and the startup check.
--------------------------------------------------------------------------- -/

/-- The configuration sources the client getters read: the two environment
variables, the two Streamlit secrets, and whether each SDK module imported. -/
structure StartupEnv where
  gemini_env : Option (List Nat)
  gemini_secret : Option (List Nat)
  openai_env : Option (List Nat)
  openai_secret : Option (List Nat)
  genai_available : Bool
  openai_available : Bool

/-- Python `A or B` for a string-or-None `A`. -/
def py_or_str (a b : Option (List Nat)) : Option (List Nat) :=
  match a with
  | some k => if k.isEmpty then b else some k
  | none => b

/-- Truthiness of a string-or-None value. -/
def py_truthy (a : Option (List Nat)) : Bool :=
  match a with
  | some k => !k.isEmpty
  | none => false

/-- app.py line 63. Python's conditional binds looser than `or`, so this parses
as `(os.getenv(K) or st.secrets.get(K)) if K in st.secrets else None`: when the
secret is absent the environment variable is ignored as well. -/
def gemini_api_key (e : StartupEnv) : Option (List Nat) :=
  if e.gemini_secret.isSome then py_or_str e.gemini_env e.gemini_secret else none

/-- app.py line 70, same shape as `gemini_api_key`. -/
def openai_api_key (e : StartupEnv) : Option (List Nat) :=
  if e.openai_secret.isSome then py_or_str e.openai_env e.openai_secret else none

/-- app.py lines 61-66: `get_gemini_client` returns a client only when the key
is truthy and the genai module imported; `Option Unit` stands for the client. -/
def get_gemini_client (e : StartupEnv) : Option Unit :=
  if py_truthy (gemini_api_key e) && e.genai_available then some () else none

/-- app.py lines 68-74: `get_openai_client`. -/
def get_openai_client (e : StartupEnv) : Option Unit :=
  if py_truthy (openai_api_key e) && e.openai_available then some () else none

/-- Modelled from the spec: the startup credential check. src/app.py ends at
line 200 with a comment that the rest of the code (the UI wiring, including
startup) is omitted, so this definition follows the spec's words: "an API
credential read from an environment variable or a secrets store; absence is a
fatal startup condition reported to the user" and "credential missing → startup
reports a fatal configuration error". It returns the fatal error message
exactly when no provider has a usable credential. -/
def startup_check (e : StartupEnv) : Option (List Nat) :=
  if py_truthy (gemini_api_key e) || py_truthy (openai_api_key e) then none
  else some (txt s_fatal)

/- ---------------------------------------------------------------------------
Decidable equality for `Except`, and concrete fixtures used to evaluate the
model on specific inputs.
--------------------------------------------------------------------------- -/

instance {ε α : Type} [DecidableEq ε] [DecidableEq α] : DecidableEq (Except ε α)
  | .error a, .error b =>
    if h : a = b then .isTrue (by rw [h]) else .isFalse (by simp [h])
  | .error _, .ok _ => .isFalse (by simp)
  | .ok _, .error _ => .isFalse (by simp)
  | .ok a, .ok b =>
    if h : a = b then .isTrue (by rw [h]) else .isFalse (by simp [h])

def s_x : String := "x"

def s_boom : String := "boom"

def s_hi : String := "hi"

def s_ok : String := "ok"

def s_a : String := "a"

def s_b : String := "b"

def s_a_pdf : String := "a.pdf"

def s_a_md : String := "a.md"

def s_a_txt : String := "a.txt"

def s_a_nn_b : String := "a\n\nb"

/-- A library environment whose PDF/DOCX parsers raise and whose Markdown
converter is the identity. -/
def libs_trivial : PyLibs :=
  ⟨fun _ => .error (txt s_x), fun _ => .error (txt s_x), fun t => .ok t⟩

/-- A 120001-code-point text, one over the cap. -/
def big_text : List Nat := List.replicate 120001 97

/-- A library environment whose PDF parser yields one page of `big_text`. -/
def libs_big_pdf : PyLibs :=
  ⟨fun _ => .ok [.ok big_text], fun _ => .error (txt s_x), fun t => .ok t⟩

/-- Per-page outcomes of a three-page PDF whose middle page's `extract_text`
raises. -/
def c5_pages : List (Except (List Nat) (List Nat)) :=
  [.ok (txt s_a), .error (txt s_x), .ok (txt s_b)]

/-- A library environment whose PDF parser yields `c5_pages`. -/
def libs_c5 : PyLibs :=
  ⟨fun _ => .ok c5_pages, fun _ => .error (txt s_x), fun t => .ok t⟩

/-- A library environment whose Markdown converter raises. -/
def libs_md_raises : PyLibs :=
  ⟨fun _ => .error (txt s_x), fun _ => .error (txt s_x), fun _ => .error (txt s_boom)⟩

/-- No provider configured. -/
def env_none : Env := ⟨none, none⟩

/-- Only OpenAI configured, modern SDK (`ChatCompletion` present), replying "ok". -/
def env_chat_ok : Env :=
  ⟨none, some ⟨true, fun _ _ => .ok (txt s_ok), fun _ => .ok (txt s_ok)⟩⟩

/-- Only Gemini configured, replying "ok". -/
def env_gemini_ok : Env :=
  ⟨some ⟨fun _ => .ok ⟨some (txt s_ok), txt s_ok⟩⟩, none⟩

/-- Only OpenAI configured, modern SDK, and the completion call raises. -/
def env_chat_raises : Env :=
  ⟨none, some ⟨true, fun _ _ => .error (txt s_boom), fun _ => .error (txt s_boom)⟩⟩

/-- A prompt of 485 spaces: the assembled prompt around it (273-code-point
preamble plus the labelled fields) then has exactly 801 code points and ends in
whitespace. -/
def c10_prompt : List Nat := List.replicate 485 32

/-- A startup environment with no credential anywhere. -/
def startup_none : StartupEnv := ⟨none, none, none, none, true, true⟩

/- ---------------------------------------------------------------------------
Helper lemmas.
--------------------------------------------------------------------------- -/

lemma latin1_decode_lt {bs : List Byte} {c : Nat} (hc : c ∈ latin1_decode bs) :
    c < 256 := by
  simp only [latin1_decode, List.mem_map] at hc
  obtain ⟨b, -, rfl⟩ := hc
  exact b.isLt

lemma utf8_step_rest_le (b : Byte) (rest : List Byte) :
    (utf8_step b rest).2.1.length ≤ rest.length := by
  unfold utf8_step
  repeat' split
  all_goals (try simp)
  all_goals omega

lemma utf8_step_invalid (b : Byte) (rest : List Byte) :
    (utf8_step b rest).2.2 = false → (utf8_step b rest).1 = 65533 := by
  unfold utf8_step
  repeat' split
  all_goals simp

lemma fffd_mem_loop :
    ∀ (n : Nat) (bs : List Byte), bs.length ≤ n → (utf8_loop n bs).2 = false →
      (65533 : Nat) ∈ (utf8_loop n bs).1 := by
  intro n
  induction n with
  | zero =>
    intro bs hlen h
    simp [utf8_loop] at h
  | succ n ih =>
    intro bs hlen h
    match bs with
    | [] => simp [utf8_loop] at h
    | b :: rest =>
      simp only [utf8_loop, Bool.and_eq_false_iff] at h
      simp only [utf8_loop, List.mem_cons]
      rcases h with h | h
      · exact Or.inl (utf8_step_invalid b rest h).symm
      · refine Or.inr (ih _ ?_ h)
        have := utf8_step_rest_le b rest
        simp only [List.length_cons] at hlen
        omega

lemma fffd_mem_core {bs : List Byte} (h : (utf8_decode_core bs).2 = false) :
    (65533 : Nat) ∈ (utf8_decode_core bs).1 :=
  fffd_mem_loop bs.length bs (Nat.le_refl _) h

lemma cap_file_text_length_le (t : List Nat) :
    (cap_file_text t).length ≤ MAX_FILE_TEXT + TRUNC_MARKER.length := by
  unfold cap_file_text
  split
  · simp only [List.length_append, List.length_take]
    omega
  · omega

lemma cap_file_text_of_long {t : List Nat} (h : MAX_FILE_TEXT < t.length) :
    cap_file_text t = t.take MAX_FILE_TEXT ++ TRUNC_MARKER := by
  unfold cap_file_text
  rw [if_pos h]

lemma pdf_pages_loop_eq :
    ∀ (pages : List (Except (List Nat) (List Nat))) (acc : List (List Nat)),
      pdf_pages_loop pages acc =
        acc ++ (pages.map pdf_page_text).filter (fun t => !t.isEmpty) := by
  intro pages
  induction pages with
  | nil => intro acc; simp [pdf_pages_loop]
  | cons pg rest ih =>
    intro acc
    by_cases h : (pdf_page_text pg).isEmpty <;>
      simp [pdf_pages_loop, h, ih, List.filter_cons, List.append_assoc]

lemma txt_mode_pre_split : txt s_mode_pre = txt s_nl ++ txt s_mode_label := by decide

lemma txt_ext_pre_split : txt s_ext_pre = txt s_nl ++ txt s_ext_label := by decide

lemma txt_fb_split : txt s_fallback_header = txt s_fallback_tag ++ txt s_nn := by decide

lemma mode_field_inf (p : List Nat) (m : Option ModeMeta) :
    (txt s_mode_label ++ meta_reasoning m) <:+: assembled_prompt p m := by
  refine ⟨system_preamble ++ txt s_nl,
    txt s_ext_pre ++ py_bool_str (meta_external_flag m) ++ txt s_nn ++ p, ?_⟩
  simp [assembled_prompt, txt_mode_pre_split, List.append_assoc]

lemma ext_field_inf (p : List Nat) (m : Option ModeMeta) :
    (txt s_ext_label ++ py_bool_str (meta_external_flag m)) <:+: assembled_prompt p m := by
  refine ⟨system_preamble ++ txt s_mode_pre ++ meta_reasoning m ++ txt s_nl,
    txt s_nn ++ p, ?_⟩
  simp [assembled_prompt, txt_ext_pre_split, List.append_assoc]

lemma openai_stage_trace (env : Env) (dbg : Bool) (a p : List Nat) :
    (openai_stage env dbg a p).2 = [] ∨
    (openai_stage env dbg a p).2 = [.openaiChat system_preamble p] ∨
    (openai_stage env dbg a p).2 = [.openaiCompletion a] := by
  unfold openai_stage
  cases ho : env.openai with
  | none => simp
  | some oc =>
    by_cases h : oc.hasChat
    · cases hr : oc.chat system_preamble p <;> simp [h, hr]
    · cases hr : oc.completion a <;> simp [h, hr]

lemma generate_response_calls (env : Env) (d : Bool) (p : List Nat)
    (m : Option ModeMeta) (c : ProviderCall)
    (hc : c ∈ (generate_response env d p m).2) :
    c = .gemini (assembled_prompt p m) ∨ c = .openaiChat system_preamble p ∨
      c = .openaiCompletion (assembled_prompt p m) := by
  unfold generate_response at hc
  cases hg : env.gemini with
  | none =>
    simp only [hg] at hc
    rcases openai_stage_trace env d (assembled_prompt p m) p with h | h | h <;>
      rw [h] at hc <;> simp at hc <;> simp [hc]
  | some g =>
    simp only [hg] at hc
    cases hr : g.generate (assembled_prompt p m) with
    | ok resp => simp [hr] at hc; simp [hc]
    | error e =>
      simp only [hr] at hc
      rcases List.mem_cons.mp hc with h | h
      · exact Or.inl h
      · rcases openai_stage_trace env true (assembled_prompt p m) p with h2 | h2 | h2 <;>
          rw [h2] at h <;> simp_all

lemma trunc_marker_length : TRUNC_MARKER.length = 13 := by decide

lemma intercalate_single (sep x : List Nat) : List.intercalate sep [x] = x := by
  simp [List.intercalate]

lemma big_text_cons : big_text = 97 :: List.replicate 120000 97 := by
  rw [big_text, show (120001 : Nat) = 120000 + 1 by norm_num, List.replicate_succ]

lemma big_text_not_empty : big_text.isEmpty = false := by
  rw [big_text_cons]
  rfl

lemma big_text_length : big_text.length = 120001 := by
  rw [big_text]
  exact List.length_replicate 120001 97

lemma parse_extract_is_pdf {libs : PyLibs} {name : List Nat} {raw : List Byte}
    (h : (txt s_dot_pdf).isSuffixOf (py_lower name) = true) :
    parse_extract libs name raw = .ok (read_pdf_bytes libs raw) := by
  unfold parse_extract
  simp [h]

lemma pdf_suffix_a_pdf : (txt s_dot_pdf).isSuffixOf (py_lower (txt s_a_pdf)) = true := by
  decide

lemma read_pdf_big : read_pdf_bytes libs_big_pdf [] = big_text := by
  unfold read_pdf_bytes libs_big_pdf
  simp [pdf_pages_loop_eq, pdf_page_text, big_text_not_empty, intercalate_single]

lemma parse_uploaded_file_ok {libs : PyLibs} {name : List Nat} {raw : List Byte}
    {t : List Nat} (h : parse_extract libs name raw = .ok t) :
    parse_uploaded_file libs name raw = .ok (name, cap_file_text t) := by
  unfold parse_uploaded_file
  rw [h]

lemma take_append_marker (t : List Nat) (h : MAX_FILE_TEXT < t.length) :
    (t.take MAX_FILE_TEXT ++ TRUNC_MARKER).take MAX_FILE_TEXT = t.take MAX_FILE_TEXT := by
  rw [List.take_append_eq_append_take, List.take_take]
  have hmin : min MAX_FILE_TEXT t.length = MAX_FILE_TEXT := by omega
  simp [List.length_take, hmin]

/-- C1 counterexample: a 120001-character extraction makes `parse_uploaded_file`
return a text of 120013 characters, strictly above the 120000 cap, because the
truncation marker is appended after the cut. -/
theorem C1_counterexample_cap_exceeded :
    parse_uploaded_file libs_big_pdf (txt s_a_pdf) [] =
      .ok (txt s_a_pdf, List.replicate MAX_FILE_TEXT 97 ++ TRUNC_MARKER) ∧
    MAX_FILE_TEXT < (List.replicate MAX_FILE_TEXT 97 ++ TRUNC_MARKER).length := by
  constructor
  · have hext : parse_extract libs_big_pdf (txt s_a_pdf) [] = .ok big_text := by
      rw [parse_extract_is_pdf pdf_suffix_a_pdf, read_pdf_big]
    rw [parse_uploaded_file_ok hext,
      cap_file_text_of_long (by rw [big_text_length]; norm_num [MAX_FILE_TEXT])]
    have htake : big_text.take MAX_FILE_TEXT = List.replicate MAX_FILE_TEXT 97 := by
      rw [big_text, List.take_replicate]
      norm_num [MAX_FILE_TEXT]
    rw [htake]
  · rw [List.length_append, List.length_replicate, trunc_marker_length]
    norm_num [MAX_FILE_TEXT]

/-- C1 (amended): for every uploaded file, the text returned by
`parse_uploaded_file` has length at most the cap `MAX_FILE_TEXT = 120000` plus
the length of the truncation marker (13), i.e. at most 120013; the claimed
bound of 120000 alone fails (see the counterexample). -/
theorem C1_parse_text_length_le_cap_plus_marker
    (libs : PyLibs) (name : List Nat) (raw : List Byte) (n t : List Nat)
    (h : parse_uploaded_file libs name raw = .ok (n, t)) :
    t.length ≤ MAX_FILE_TEXT + TRUNC_MARKER.length := by
  unfold parse_uploaded_file at h
  cases he : parse_extract libs name raw with
  | error e => rw [he] at h; exact absurd h (by simp)
  | ok text =>
    rw [he] at h
    simp only [Except.ok.injEq, Prod.mk.injEq] at h
    rw [← h.2]
    exact cap_file_text_length_le text

/-- Witness for C1: a one-byte `.txt` upload satisfies the hypothesis and the
bound. -/
theorem C1_parse_text_length_le_cap_plus_marker_witness :
    parse_uploaded_file libs_trivial (txt s_a_txt) [(97 : Fin 256)] =
      .ok (txt s_a_txt, txt s_a) ∧ (txt s_a).length ≤ MAX_FILE_TEXT + TRUNC_MARKER.length :=
  ⟨by decide,
   C1_parse_text_length_le_cap_plus_marker libs_trivial (txt s_a_txt)
     [(97 : Fin 256)] (txt s_a_txt) (txt s_a) (by decide)⟩

/-- C2: when the raw extracted text has length L > 120000, `parse_uploaded_file`
returns a text of length exactly cap + marker length, whose first 120000
characters are a prefix of the original text, with the truncation marker as a
suffix. -/
theorem C2_truncation_exact
    (libs : PyLibs) (name : List Nat) (raw : List Byte) (t : List Nat)
    (hext : parse_extract libs name raw = .ok t)
    (hlen : MAX_FILE_TEXT < t.length) :
    parse_uploaded_file libs name raw =
      .ok (name, t.take MAX_FILE_TEXT ++ TRUNC_MARKER) ∧
    (t.take MAX_FILE_TEXT ++ TRUNC_MARKER).length = MAX_FILE_TEXT + TRUNC_MARKER.length ∧
    (t.take MAX_FILE_TEXT ++ TRUNC_MARKER).take MAX_FILE_TEXT <+: t ∧
    TRUNC_MARKER <:+ t.take MAX_FILE_TEXT ++ TRUNC_MARKER := by
  refine ⟨?_, ?_, ?_, ?_⟩
  · rw [parse_uploaded_file_ok hext, cap_file_text_of_long hlen]
  · simp only [List.length_append, List.length_take]
    omega
  · rw [take_append_marker t hlen]
    exact ⟨t.drop MAX_FILE_TEXT, List.take_append_drop _ _⟩
  · exact ⟨t.take MAX_FILE_TEXT, rfl⟩

/-- Witness for C2: the single-page 120001-character PDF extraction. -/
theorem C2_truncation_exact_witness :
    parse_extract libs_big_pdf (txt s_a_pdf) [] = .ok big_text ∧
    MAX_FILE_TEXT < big_text.length ∧
    parse_uploaded_file libs_big_pdf (txt s_a_pdf) [] =
      .ok (txt s_a_pdf, big_text.take MAX_FILE_TEXT ++ TRUNC_MARKER) := by
  have h1 : parse_extract libs_big_pdf (txt s_a_pdf) [] = .ok big_text := by
    rw [parse_extract_is_pdf pdf_suffix_a_pdf, read_pdf_big]
  have h2 : MAX_FILE_TEXT < big_text.length := by
    rw [big_text_length]; norm_num [MAX_FILE_TEXT]
  exact ⟨h1, h2, (C2_truncation_exact libs_big_pdf (txt s_a_pdf) [] big_text h1 h2).1⟩

/-- C3 counterexample: an exception raised by the Markdown converter on a
`.md` file escapes `parse_uploaded_file` (the `markdown2.markdown` call at
app.py line 194 is outside every `try/except`). -/
theorem C3_counterexample_md_exception_escapes :
    parse_uploaded_file libs_md_raises (txt s_a_md) [] = .error (txt s_boom) := by
  decide

/-- C3 (amended): `parse_uploaded_file` returns normally (a string, possibly an
error-descriptive one) for every input, except that on files routed to the
Markdown branch an exception raised by the Markdown converter propagates: its
result is ok exactly when the file is a PDF, a DOCX, not a Markdown file, or
the Markdown conversion of the decoded text succeeds. -/
theorem C3_never_raises_except_markdown (libs : PyLibs) (name : List Nat) (raw : List Byte) :
    (parse_uploaded_file libs name raw).isOk =
      ((txt s_dot_pdf).isSuffixOf (py_lower name) ||
       (txt s_dot_docx).isSuffixOf (py_lower name) ||
       !(txt s_dot_md).isSuffixOf (py_lower name) ||
       (libs.markdown (read_text_bytes raw)).isOk) := by
  unfold parse_uploaded_file parse_extract
  by_cases h1 : (txt s_dot_pdf).isSuffixOf (py_lower name) <;>
    by_cases h2 : (txt s_dot_docx).isSuffixOf (py_lower name) <;>
      by_cases h3 : (txt s_dot_md).isSuffixOf (py_lower name) <;>
        simp only [h1, h2, h3, if_true, if_false, Bool.false_or, Bool.true_or,
          Bool.or_true, Bool.or_false, Bool.not_true, Bool.not_false] <;>
          first
          | rfl
          | (cases hm : libs.markdown (read_text_bytes raw) <;>
              simp [hm, Except.isOk, Except.toBool])

/-- C4 counterexample: no byte sequence that is invalid UTF-8 makes
`read_text_bytes` produce the Latin-1 decoding: the `errors="replace"` UTF-8
decode never raises, so the Latin-1 branch of app.py line 181 is unreachable,
and on invalid input the result contains U+FFFD, which a Latin-1 decoding
never contains. -/
theorem C4_counterexample_no_latin1_fallback :
    ¬ ∃ bs : List Byte, utf8_valid bs = false ∧ read_text_bytes bs = latin1_decode bs := by
  rintro ⟨bs, hv, he⟩
  have hm : (65533 : Nat) ∈ read_text_bytes bs := fffd_mem_core hv
  rw [he] at hm
  exact absurd (latin1_decode_lt hm) (by norm_num)

/-- C4 (amended): for every file that is not a PDF and not a DOCX the raw bytes
are decoded as UTF-8 with U+FFFD replacement (`read_text_bytes` is exactly that
decoding); on input that is not valid UTF-8 the result contains the replacement
character U+FFFD and is never the Latin-1 decoding — the claimed Latin-1
fallback does not happen. -/
theorem C4_utf8_replacement_not_latin1 (bs : List Byte) (h : utf8_valid bs = false) :
    read_text_bytes bs = utf8_decode_replace bs ∧
    (65533 : Nat) ∈ read_text_bytes bs ∧
    read_text_bytes bs ≠ latin1_decode bs := by
  refine ⟨rfl, fffd_mem_core h, fun he => ?_⟩
  have hm : (65533 : Nat) ∈ read_text_bytes bs := fffd_mem_core h
  rw [he] at hm
  exact absurd (latin1_decode_lt hm) (by norm_num)

/-- Witness for C4: the lone byte 0xE9 is invalid UTF-8 and decodes to U+FFFD,
not to the Latin-1 "é". -/
theorem C4_utf8_replacement_not_latin1_witness :
    utf8_valid [(233 : Fin 256)] = false ∧
    ((65533 : Nat) ∈ read_text_bytes [(233 : Fin 256)] ∧
     read_text_bytes [(233 : Fin 256)] ≠ latin1_decode [(233 : Fin 256)]) :=
  ⟨by decide, (C4_utf8_replacement_not_latin1 [(233 : Fin 256)] (by decide)).2⟩

/-- C5 counterexample: for a three-page PDF whose middle page's extraction
fails, the result is "a\n\nb" — the failing page is dropped from the
blank-line join rather than contributing an empty string to it (which would
give "a\n\n\n\nb"). -/
theorem C5_counterexample_empty_pages_dropped :
    read_pdf_bytes libs_c5 [] = txt s_a_nn_b ∧
    read_pdf_bytes libs_c5 [] ≠
      List.intercalate (txt s_nn) (c5_pages.map pdf_page_text) := by
  constructor <;> decide

/-- C5 (amended): for every PDF input that parses successfully, the extracted
text is the blank-line join of the non-empty per-page texts: a page whose
extraction fails is treated as empty (no error), and empty page texts are
omitted from the join. -/
theorem C5_pdf_join_nonempty_pages (libs : PyLibs) (raw : List Byte)
    (pages : List (Except (List Nat) (List Nat)))
    (h : libs.pdf_reader raw = .ok pages) :
    read_pdf_bytes libs raw =
      List.intercalate (txt s_nn)
        ((pages.map pdf_page_text).filter (fun t => !t.isEmpty)) := by
  unfold read_pdf_bytes
  rw [h]
  show List.intercalate (txt s_nn) (pdf_pages_loop pages []) = _
  rw [pdf_pages_loop_eq]
  rfl

/-- Witness for C5: the three-page fixture. -/
theorem C5_pdf_join_nonempty_pages_witness :
    libs_c5.pdf_reader [] = .ok c5_pages ∧
    read_pdf_bytes libs_c5 [] =
      List.intercalate (txt s_nn)
        ((c5_pages.map pdf_page_text).filter (fun t => !t.isEmpty)) :=
  ⟨by decide, C5_pdf_join_nonempty_pages libs_c5 [] c5_pages (by decide)⟩

/-- C6: for every user prompt and mode metadata, the assembled prompt built by
`generate_response` has the fixed system preamble as a prefix. -/
theorem C6_preamble_prefix_of_assembled (p : List Nat) (m : Option ModeMeta) :
    system_preamble <+: assembled_prompt p m := by
  refine ⟨txt s_mode_pre ++ meta_reasoning m ++ txt s_ext_pre ++
    py_bool_str (meta_external_flag m) ++ txt s_nn ++ p, ?_⟩
  simp [assembled_prompt, List.append_assoc]

/-- C7 counterexample: on the OpenAI ChatCompletion path the request carries
only the system preamble and the raw user prompt; the labelled
`Mode: <reasoning>` field is not an infix of the sent text, refuting the claim
for that provider path. -/
theorem C7_counterexample_chat_path_lacks_labels :
    (generate_response env_chat_ok true (txt s_hi) none).2 =
      [ProviderCall.openaiChat system_preamble (txt s_hi)] ∧
    ¬ ((txt s_mode_label ++ meta_reasoning none) <:+:
        sent_text (ProviderCall.openaiChat system_preamble (txt s_hi))) := by
  constructor <;> decide

/-- C7 (amended): every provider request that carries a single prompt string
(the Gemini path, app.py line 104, and the legacy OpenAI Completion path,
line 135) contains `Mode: <reasoning>` and `ExternalLinksAllowed: <flag>` as
labelled fields; the OpenAI ChatCompletion path (lines 121-124) does not — it
sends only the preamble and the raw prompt. -/
theorem C7_labels_on_single_string_paths (env : Env) (d : Bool) (p : List Nat)
    (m : Option ModeMeta) (a : List Nat)
    (h : ProviderCall.gemini a ∈ (generate_response env d p m).2 ∨
         ProviderCall.openaiCompletion a ∈ (generate_response env d p m).2) :
    (txt s_mode_label ++ meta_reasoning m) <:+: a ∧
    (txt s_ext_label ++ py_bool_str (meta_external_flag m)) <:+: a := by
  have ha : a = assembled_prompt p m := by
    rcases h with h | h <;> rcases generate_response_calls env d p m _ h with h2 | h2 | h2 <;>
      simp at h2 <;> exact h2
  rw [ha]
  exact ⟨mode_field_inf p m, ext_field_inf p m⟩

/-- Witness for C7: the Gemini path of the fixture environment. -/
theorem C7_labels_on_single_string_paths_witness :
    (ProviderCall.gemini (assembled_prompt (txt s_hi) none) ∈
        (generate_response env_gemini_ok true (txt s_hi) none).2 ∨
     ProviderCall.openaiCompletion (assembled_prompt (txt s_hi) none) ∈
        (generate_response env_gemini_ok true (txt s_hi) none).2) ∧
    ((txt s_mode_label ++ meta_reasoning none) <:+: assembled_prompt (txt s_hi) none ∧
     (txt s_ext_label ++ py_bool_str (meta_external_flag none)) <:+:
       assembled_prompt (txt s_hi) none) :=
  ⟨Or.inl (by decide),
   C7_labels_on_single_string_paths env_gemini_ok true (txt s_hi) none
     (assembled_prompt (txt s_hi) none) (Or.inl (by decide))⟩

/-- C8 (code bug): with no Gemini client, a configured OpenAI client whose call
raises, and no pre-existing `st.debug` attribute, `generate_response` raises
`AttributeError` to its caller instead of returning a string: the `except`
branch at app.py line 141 calls `st.debug`, which only line 113 (the Gemini
`except` branch, not executed here) would have defined. -/
theorem C8_attribute_error_on_openai_failure :
    (generate_response env_chat_raises false (txt s_hi) none).1 =
      .error (txt s_attr_err) := by
  decide

/-- C9: when no API credential is configured anywhere, both client getters
return None, the (spec-modelled) startup check reports the fatal configuration
error, and `generate_response` attempts no completion call. -/
theorem C9_missing_credentials_fatal_and_no_calls (e : StartupEnv)
    (h1 : e.gemini_env = none) (h2 : e.gemini_secret = none)
    (h3 : e.openai_env = none) (h4 : e.openai_secret = none) :
    get_gemini_client e = none ∧ get_openai_client e = none ∧
    startup_check e = some (txt s_fatal) ∧
    ∀ (d : Bool) (p : List Nat) (m : Option ModeMeta),
      (generate_response env_none d p m).2 = [] := by
  have hg : gemini_api_key e = none := by simp [gemini_api_key, h2]
  have ho : openai_api_key e = none := by simp [openai_api_key, h4]
  refine ⟨?_, ?_, ?_, ?_⟩
  · simp [get_gemini_client, hg, py_truthy]
  · simp [get_openai_client, ho, py_truthy]
  · simp [startup_check, hg, ho, py_truthy]
  · intro d p m
    simp [generate_response, env_none, openai_stage]

/-- Witness for C9: the all-empty startup environment. -/
theorem C9_missing_credentials_fatal_and_no_calls_witness :
    startup_none.gemini_env = none ∧ startup_none.gemini_secret = none ∧
    startup_none.openai_env = none ∧ startup_none.openai_secret = none ∧
    startup_check startup_none = some (txt s_fatal) :=
  ⟨rfl, rfl, rfl, rfl,
   (C9_missing_credentials_fatal_and_no_calls startup_none rfl rfl rfl rfl).2.2.1⟩

/-- C10 counterexample: with a 485-space prompt the assembled prompt has 801
characters (more than 800), yet the local fallback response does not end in
"..." — the 800-cut and the ellipsis test are applied to the *stripped*
assembled prompt (app.py line 143), which here has only 314 characters. -/
theorem C10_counterexample_ellipsis_missing :
    800 < (assembled_prompt c10_prompt none).length ∧
    (generate_response env_none false c10_prompt none).1 =
      .ok (local_fallback (assembled_prompt c10_prompt none)) ∧
    ¬ (txt s_dots <:+ local_fallback (assembled_prompt c10_prompt none)) := by
  refine ⟨by decide, by decide, by decide⟩

/-- C10 (amended): when no provider is configured, `generate_response` returns
`[Local fallback response]\n\n` followed by the first 800 characters of the
whitespace-stripped assembled prompt, with `...` appended exactly when the
stripped assembled prompt (not the assembled prompt itself) is longer than 800
characters; in particular the result starts with the fallback tag. -/
theorem C10_fallback_from_stripped_prompt (d : Bool) (p : List Nat) (m : Option ModeMeta) :
    (generate_response env_none d p m).1 =
      .ok (txt s_fallback_header ++
        ((py_strip (assembled_prompt p m)).take 800 ++
         (if 800 < (py_strip (assembled_prompt p m)).length then txt s_dots else []))) ∧
    txt s_fallback_tag <+:
      txt s_fallback_header ++
        ((py_strip (assembled_prompt p m)).take 800 ++
         (if 800 < (py_strip (assembled_prompt p m)).length then txt s_dots else [])) := by
  constructor
  · simp [generate_response, env_none, openai_stage, local_fallback]
  · refine ⟨txt s_nn ++
      ((py_strip (assembled_prompt p m)).take 800 ++
       (if 800 < (py_strip (assembled_prompt p m)).length then txt s_dots else [])), ?_⟩
    simp [txt_fb_split, List.append_assoc]
